/-
Verification development for the periodic-task demo `main_blinky.c`.

The program registers four FreeRTOS tasks (vTask1..vTask4) and starts the
scheduler.  Each task is an infinite loop that emits one console message per
activation and then requests a fixed delay.  We embed the task bodies
shallowly: console messages become values of an inductive `Msg` type, the
observable actions of one activation become a `List Effect`, and the
binary-search loop of vTask4 becomes a fuel-indexed step function whose
out-of-bounds array accesses are made explicit (they are undefined behaviour
in the C source, which reads a 50-element stack array).
-/
import Mathlib

namespace MainBlinky

/-- Console messages, one constructor per distinct printf in the source.
The numeric payloads are the values interpolated into the format string;
for the `%.2f` conversions of vTask2 the payload is the displayed number
of hundredths (an integer, since `%.2f` prints exactly two decimals). -/
inductive Msg where
  | task1Completed : Msg
  | task2Temp : ℤ → ℤ → Msg
  | task3Mult : ℤ → Msg
  | task4Found : ℤ → ℤ → Msg
  | task4NotFound : ℤ → Msg
deriving DecidableEq, Repr

/-- Observable actions of a task activation: emitting a console message, or
requesting a delay of the given number of milliseconds (the source passes
`pdMS_TO_TICKS(ms)` to `vTaskDelay`; we record the millisecond argument). -/
inductive Effect where
  | emit : Msg → Effect
  | delay : ℕ → Effect
deriving DecidableEq, Repr

/-- Priority of the idle task, the base of the task priority macros. -/
def tskIDLE_PRIORITY : ℕ := 0

/-- Priority of Task 1: `tskIDLE_PRIORITY + 1`. -/
def QUEUE_TASK_PRIORITY1 : ℕ := tskIDLE_PRIORITY + 1

/-- Priority of Task 2: `tskIDLE_PRIORITY + 2`. -/
def QUEUE_TASK_PRIORITY2 : ℕ := tskIDLE_PRIORITY + 2

/-- Priority of Task 3: `tskIDLE_PRIORITY + 3`. -/
def QUEUE_TASK_PRIORITY3 : ℕ := tskIDLE_PRIORITY + 3

/-- Priority of Task 4: `tskIDLE_PRIORITY + 4`. -/
def QUEUE_TASK_PRIORITY4 : ℕ := tskIDLE_PRIORITY + 4

/-- Period of Task 1 in milliseconds (`pdMS_TO_TICKS(200)`). -/
def TASK1_PERIOD_MS : ℕ := 200

/-- Period of Task 2 in milliseconds (`pdMS_TO_TICKS(500)`). -/
def TASK2_PERIOD_MS : ℕ := 500

/-- Period of Task 3 in milliseconds (`pdMS_TO_TICKS(1000)`). -/
def TASK3_PERIOD_MS : ℕ := 1000

/-- Period of Task 4 in milliseconds (`pdMS_TO_TICKS(100)`). -/
def TASK4_PERIOD_MS : ℕ := 100

/-! ## Task D (vTask4): binary search -/

/-- The array vTask4 populates on every activation: `arr[i] = i` for
`0 <= i < 50`. -/
def arr : List ℤ := (List.range 50).map (fun i => (i : ℤ))

/-- The fixed search target of vTask4. -/
def targetNumber : ℤ := 36

/-- C array read `a[i]`: defined exactly when `0 <= i < length` (any other
index is an out-of-bounds read of the stack array, undefined behaviour). -/
def arrayGet (a : List ℤ) (i : ℤ) : Option ℤ :=
  if 0 ≤ i then a.get? i.toNat else none

/-- Mutable locals of the search loop: `lowBound` and `highBound`. -/
structure BSState where
  lowBound : ℤ
  highBound : ℤ
deriving DecidableEq, Repr

/-- How one iteration of the inner `for (;;)` loop of vTask4 can end the
loop: `found i` models the `break` after `result = mid`, and `oob i` records
an out-of-bounds array access (undefined behaviour).  There is no
constructor for a not-found exit because the loop in the source has no
bounds-inversion test: no iteration can leave the loop without either
breaking on a match or touching `arr[mid]` outside the array. -/
inductive BSOutcome where
  | found : ℤ → BSOutcome
  | oob : ℤ → BSOutcome
deriving DecidableEq, Repr

/-- The midpoint computed by the loop body: `low + (high - low) / 2`, with C
signed division (truncation toward zero, `Int.tdiv`). -/
def bsMid (s : BSState) : ℤ :=
  s.lowBound + (s.highBound - s.lowBound).tdiv 2

/-- One iteration of the inner loop of vTask4: compute `mid`, read
`arr[mid]`, and either break (`found`), fault (`oob`), or continue with
updated bounds. -/
def bsStep (a : List ℤ) (t : ℤ) (s : BSState) : BSOutcome ⊕ BSState :=
  let mid := bsMid s
  match arrayGet a mid with
  | none => Sum.inl (BSOutcome.oob mid)
  | some v =>
    if v = t then Sum.inl (BSOutcome.found mid)
    else if v < t then Sum.inr ⟨mid + 1, s.highBound⟩
    else Sum.inr ⟨s.lowBound, mid - 1⟩

/-- Run the inner loop for at most `n` iterations; `none` means the loop has
not ended within `n` iterations. -/
def bsRun (a : List ℤ) (t : ℤ) : ℕ → BSState → Option BSOutcome
  | 0, _ => none
  | n + 1, s =>
    match bsStep a t s with
    | Sum.inl o => some o
    | Sum.inr s1 => bsRun a t n s1

/-- The indices `mid` used to access the array during the first `n`
iterations of the loop (each entry is read as `arr[mid]` by that
iteration, whether or not the read is in bounds). -/
def bsMids (a : List ℤ) (t : ℤ) : ℕ → BSState → List ℤ
  | 0, _ => []
  | n + 1, s =>
    bsMid s ::
      match bsStep a t s with
      | Sum.inl _ => []
      | Sum.inr s1 => bsMids a t n s1

/-- The initial loop state of vTask4: `lowBound = 0`, `highBound = 49`. -/
def bsInit : BSState := ⟨0, 49⟩

/-! ## IEEE-754 rounding model for Task B (vTask2)

`vTask2` computes in C `float`/`double` arithmetic.  We model binary
floating-point values by the exact rationals they denote and each operation
as exact rational arithmetic followed by rounding to the nearest
representable value (round to nearest, ties to even), which is IEEE-754
semantics for values in the normal range — all values arising in vTask2 are
normal.  So that every computation reduces inside the Lean kernel, exact
rationals are carried as explicit numerator/denominator pairs of integers
(`Frac`, denominator positive, not necessarily reduced) rather than as
`ℚ`. -/

/-- An exact rational carried as numerator and (positive) denominator. -/
structure Frac where
  num : ℤ
  den : ℤ
deriving DecidableEq, Repr

/-- The rational a `Frac` denotes. -/
def Frac.toRat (q : Frac) : ℚ := (q.num : ℚ) / (q.den : ℚ)

/-- Exact subtraction. -/
def Frac.sub (a b : Frac) : Frac :=
  ⟨a.num * b.den - b.num * a.den, a.den * b.den⟩

/-- Exact multiplication. -/
def Frac.mul (a b : Frac) : Frac :=
  ⟨a.num * b.num, a.den * b.den⟩

/-- Exact division (the sign moves to the numerator so the denominator of
the result stays positive). -/
def Frac.div (a b : Frac) : Frac :=
  if 0 ≤ b.num then ⟨a.num * b.den, a.den * b.num⟩
  else ⟨-(a.num * b.den), a.den * (-b.num)⟩

/-- Number of binary digits of a natural number, with explicit fuel (the
number itself suffices as fuel). -/
def bitsFuel : ℕ → ℕ → ℕ
  | 0, _ => 0
  | f + 1, n => if n = 0 then 0 else bitsFuel f (n / 2) + 1

/-- Round to the nearest integer, ties to even (`Int.fdiv` is floor
division, so `q.num - f * q.den` is the nonnegative fractional part times
the denominator; comparing its double against the denominator compares the
fractional part against 1/2). -/
def Frac.rne (q : Frac) : ℤ :=
  let f := q.num.fdiv q.den
  let r2 := 2 * (q.num - f * q.den)
  if r2 < q.den then f
  else if q.den < r2 then f + 1
  else if 2 ∣ f then f else f + 1

/-- Decide `2 ^ e ≤ |q|` by cross-multiplying with the (positive)
denominator. -/
def Frac.pow2LeAbs (e : ℤ) (q : Frac) : Bool :=
  if 0 ≤ e then (2 : ℤ) ^ e.toNat * q.den ≤ (q.num.natAbs : ℤ)
  else q.den ≤ (2 : ℤ) ^ (-e).toNat * (q.num.natAbs : ℤ)

/-- The binade exponent of a nonzero rational: the unique `e` with
`2 ^ e ≤ |q| < 2 ^ (e + 1)`, computed from the bit lengths of numerator and
denominator with a one-step correction. -/
def Frac.binade (q : Frac) : ℤ :=
  let a := q.num.natAbs
  let b := q.den.natAbs
  let e0 : ℤ := (bitsFuel a a : ℤ) - (bitsFuel b b : ℤ)
  if q.pow2LeAbs e0 then e0 else e0 - 1

/-- Round an exact rational to the nearest binary floating-point value with
`p` significant bits (round to nearest, ties to even), for values in the
normal range: the unit in the last place is `2 ^ (binade - p + 1)`, and the
value is scaled by it, rounded to an integer significand, and scaled
back. -/
def Frac.fpRound (p : ℕ) (q : Frac) : Frac :=
  if q.num = 0 then ⟨0, 1⟩
  else
    let k : ℤ := q.binade - (p : ℤ) + 1
    if 0 ≤ k then
      ⟨Frac.rne ⟨q.num, q.den * 2 ^ k.toNat⟩ * 2 ^ k.toNat, 1⟩
    else
      ⟨Frac.rne ⟨q.num * 2 ^ (-k).toNat, q.den⟩, 2 ^ (-k).toNat⟩

/-- Rounding to C `float` (IEEE-754 binary32, 24 significant bits). -/
def f32 (q : Frac) : Frac := Frac.fpRound 24 q

/-- Rounding to C `double` (IEEE-754 binary64, 53 significant bits). -/
def f64 (q : Frac) : Frac := Frac.fpRound 53 q

/-- The number of hundredths printed by `printf("%.2f", x)`: the nearest
integer to `100 x` (the argument is never an exact odd multiple of 1/200,
because binary floating-point values have power-of-two denominators, so
ties do not arise; we use ties-to-even for definiteness). -/
def render2 (q : Frac) : ℤ := Frac.rne ⟨q.num * 100, q.den⟩

/-! ## Task bodies -/

/-- The constant local `fVal` of vTask2: the C `float` 9120 (exact, since
9120 is an integer below 2^24). -/
def fVal : Frac := f32 ⟨9120, 1⟩

/-- The value of the per-activation local `cVal` of vTask2, following the C
expression `(fVal - 32) * 5 / 9.0` with C typing: `fVal - 32` and the
multiplication by 5 are `float` operations; dividing by the `double`
literal `9.0` promotes to `double`; the assignment converts back to
`float`. -/
def cVal : Frac := f32 (f64 ((f32 ((f32 (fVal.sub ⟨32, 1⟩)).mul ⟨5, 1⟩)).div ⟨9, 1⟩))

/-- The same conversion expression evaluated exactly over ℚ, with no
rounding: `(9120 - 32) * 5 / 9`. -/
def cValExact : ℚ := ((9120 : ℚ) - 32) * 5 / 9

/-- The constant local `firstNum` of vTask3. -/
def firstNum : ℤ := 1000000000

/-- The constant local `secondNum` of vTask3. -/
def secondNum : ℤ := 2564851111

/-- Wrap an integer to the value a signed 64-bit `long int` holds
(two's-complement wraparound). -/
def toInt64 (n : ℤ) : ℤ := (n + 2 ^ 63) % 2 ^ 64 - 2 ^ 63

/-- The per-activation local `resultMulti` of vTask3: the product
`firstNum * secondNum` computed in signed 64-bit `long int` arithmetic. -/
def resultMulti : ℤ := toInt64 (firstNum * secondNum)

/-- Effects of one activation of vTask1: print the completion message, then
delay one period. -/
def vTask1Body : List Effect :=
  [Effect.emit Msg.task1Completed, Effect.delay TASK1_PERIOD_MS]

/-- Effects of one activation of vTask2: print `fVal` and `cVal` (both
rendered by `%.2f`), then delay one period. -/
def vTask2Body : List Effect :=
  [Effect.emit (Msg.task2Temp (render2 fVal) (render2 cVal)),
   Effect.delay TASK2_PERIOD_MS]

/-- Effects of one activation of vTask3: the printf interpolates
`secondNum` (not `resultMulti`), then delay one period. -/
def vTask3Body : List Effect :=
  [Effect.emit (Msg.task3Mult secondNum), Effect.delay TASK3_PERIOD_MS]

/-- Fuel amply sufficient for the six iterations the fixed search needs. -/
def vTask4Fuel : ℕ := 50

/-- Effects of one activation of vTask4, when the inner search loop ends
within the given fuel by breaking on a match (`found`): `result` is the
matched index, and the message is chosen by the `result != -1` test exactly
as in the source.  If the loop has not ended (`none`) or faulted (`oob`),
the activation does not complete and no effect list exists. -/
def vTask4BodyWith (fuel : ℕ) : Option (List Effect) :=
  match bsRun arr targetNumber fuel bsInit with
  | some (BSOutcome.found idx) =>
    some [Effect.emit
            (if idx ≠ -1 then Msg.task4Found targetNumber idx
             else Msg.task4NotFound targetNumber),
          Effect.delay TASK4_PERIOD_MS]
  | _ => none

/-- Effects of one activation of vTask4 at the standard fuel. -/
def vTask4Body : Option (List Effect) := vTask4BodyWith vTask4Fuel

/-! ## Task loops

Each task entry routine is `for (;;) { body }`.  We model the `k`-th
activation of each task as the effect list its body produces (`none` when
the body does not complete).  No body reads anything written by a previous
activation — vTask2 and vTask3 only keep `const` locals across iterations
and vTask4 re-declares and re-populates all its locals inside the outer
loop — so the activation functions do not carry state from `k` to
`k + 1`. -/

/-- The `k`-th activation of vTask1. -/
def vTask1Act (_k : ℕ) : Option (List Effect) := some vTask1Body

/-- The `k`-th activation of vTask2. -/
def vTask2Act (_k : ℕ) : Option (List Effect) := some vTask2Body

/-- The `k`-th activation of vTask3. -/
def vTask3Act (_k : ℕ) : Option (List Effect) := some vTask3Body

/-- The `k`-th activation of vTask4. -/
def vTask4Act (_k : ℕ) : Option (List Effect) := vTask4Body

/-- True when an effect list emits the vTask4 not-found message. -/
def emitsTask4NotFound (es : List Effect) : Bool :=
  es.any (fun e =>
    match e with
    | Effect.emit (Msg.task4NotFound _) => true
    | _ => false)

/-- One turn of a task's outer `for (;;)` loop, at activation counter `k`:
if the body completes, control returns to the loop head with counter
`k + 1`; there is no path that leaves the loop (the body contains no
`return`, `break`, or `goto` out of the loop), so the only way not to
continue is a body that never completes. -/
def loopTurn (act : ℕ → Option (List Effect)) (k : ℕ) : Option ℕ :=
  (act k).map (fun _ => k + 1)

/-- The delay durations requested by an effect list. -/
def delayRequests (es : List Effect) : List ℕ :=
  es.filterMap (fun e =>
    match e with
    | Effect.delay d => some d
    | _ => none)

/-! ## main_blinky -/

/-- A task registration performed by `main_blinky` via `xTaskCreate`. -/
structure TaskReg where
  regName : String
  regPriority : ℕ
  regPeriodMS : ℕ
deriving DecidableEq, Repr

/-- The four registrations `main_blinky` performs, in source order, paired
with the period each task's body requests. -/
def taskRegs : List TaskReg :=
  [⟨"Task 1", QUEUE_TASK_PRIORITY1, TASK1_PERIOD_MS⟩,
   ⟨"Task 2", QUEUE_TASK_PRIORITY2, TASK2_PERIOD_MS⟩,
   ⟨"Task 3", QUEUE_TASK_PRIORITY3, TASK3_PERIOD_MS⟩,
   ⟨"Task 4", QUEUE_TASK_PRIORITY4, TASK4_PERIOD_MS⟩]

/-- Control state of `main_blinky` after `vTaskStartScheduler` has
returned (the resource-exhaustion failure mode): `spinning` is the empty
`for (;;) {}` loop, `returned` would be a return to the caller. -/
inductive MainPhase where
  | spinning : MainPhase
  | returned : MainPhase
deriving DecidableEq, Repr

/-- One turn of the trailing `for (;;) {}` loop: the body is empty, emits
no effect, and has no exit, so the phase stays `spinning`. -/
def mainSpinStep : MainPhase → MainPhase × List Effect
  | MainPhase.spinning => (MainPhase.spinning, [])
  | MainPhase.returned => (MainPhase.returned, [])

/-- The control state `n` loop turns after `vTaskStartScheduler` returns. -/
def mainSpin : ℕ → MainPhase
  | 0 => MainPhase.spinning
  | n + 1 => (mainSpinStep (mainSpin n)).1

/-! ## Helper lemmas -/

/-- Increasing the fuel of a finished run does not change its outcome. -/
theorem bsRun_succ_of_some {a : List ℤ} {t : ℤ} :
    ∀ (n : ℕ) (s : BSState) (o : BSOutcome),
      bsRun a t n s = some o → bsRun a t (n + 1) s = some o := by
  intro n
  induction n with
  | zero =>
    intro s o h
    simp [bsRun] at h
  | succ n ih =>
    intro s o h
    simp only [bsRun] at h ⊢
    cases hs : bsStep a t s with
    | inl o1 => simpa [hs] using h
    | inr s1 =>
      rw [hs] at h
      simpa [hs] using ih s1 o h

/-- Monotonicity of `bsRun` in the fuel. -/
theorem bsRun_of_le {a : List ℤ} {t : ℤ} {n m : ℕ} (hle : n ≤ m)
    {s : BSState} {o : BSOutcome} (hr : bsRun a t n s = some o) :
    bsRun a t m s = some o := by
  induction hle with
  | refl => exact hr
  | step _ ih => exact bsRun_succ_of_some _ _ _ ih

/-- A state the step function maps to itself keeps the loop running forever:
no amount of fuel finishes the run from it. -/
theorem bsRun_none_of_fix {a : List ℤ} {t : ℤ} {s : BSState}
    (hfix : bsStep a t s = Sum.inr s) : ∀ n, bsRun a t n s = none := by
  intro n
  induction n with
  | zero => rfl
  | succ n ih => simp [bsRun, hfix, ih]

/-- The effect list of a vTask4 activation, computed. -/
theorem vTask4Body_eq :
    vTask4Body =
      some [Effect.emit (Msg.task4Found 36 36), Effect.delay TASK4_PERIOD_MS] := by
  decide

/-! ## Claim theorems -/

/-- C1: the claim that the search loop ends by bounds inversion and reports
not-found for absent targets fails on the code as written: the inner
`for (;;)` has no `low > high` test.  For the array 0..49 and the absent
target 100, iteration 7 reads `arr[50]` — out of bounds — and at every fuel
the run has either not ended or ended in that out-of-bounds access, never
in a not-found report; for a single-element array `[5]` and target 3 the
loop never ends at all. -/
theorem task4_search_absent_target_never_reports_not_found :
    bsRun arr 100 7 bsInit = some (BSOutcome.oob 50) ∧
    (∀ n : ℕ, bsRun arr 100 n bsInit = none ∨
      bsRun arr 100 n bsInit = some (BSOutcome.oob 50)) ∧
    (∀ n : ℕ, bsRun [5] 3 n ⟨0, 0⟩ = none) := by
  refine ⟨by decide, ?_, ?_⟩
  · intro n
    rcases Nat.lt_or_ge n 7 with hn | hn
    · exact Or.inl (by interval_cases n <;> decide)
    · exact Or.inr (bsRun_of_le hn (by decide))
  · intro n
    cases n with
    | zero => rfl
    | succ n =>
      simp only [bsRun, show bsStep [5] 3 ⟨0, 0⟩ = Sum.inr ⟨0, -1⟩ from by decide]
      exact bsRun_none_of_fix (by decide) n

/-- C2: for the fixed array 0..49 and target 36 the search loop ends by
locating index 36 (`result == 36`), every activation of vTask4 emits the
found message with index 36, and no activation emits the not-found
message. -/
theorem task4_fixed_target_found_at_36 :
    bsRun arr targetNumber vTask4Fuel bsInit = some (BSOutcome.found 36) ∧
    vTask4Body =
      some [Effect.emit (Msg.task4Found 36 36), Effect.delay TASK4_PERIOD_MS] ∧
    (∀ k : ℕ, vTask4Act k =
      some [Effect.emit (Msg.task4Found 36 36), Effect.delay TASK4_PERIOD_MS]) ∧
    (∀ k : ℕ, (vTask4Act k).map emitsTask4NotFound = some false) := by
  refine ⟨by decide, vTask4Body_eq, fun k => vTask4Body_eq, fun k => ?_⟩
  simp [vTask4Act, vTask4Body_eq, emitsTask4NotFound]

/-- C3: vTask3's product is computed exactly: `resultMulti`, the product in
signed 64-bit `long int` arithmetic, equals 2564851111000000000, which is
the true product `firstNum * secondNum`, and that product lies inside the
signed 64-bit range, so no wraparound truncation occurs. -/
theorem task3_product_no_overflow :
    resultMulti = 2564851111000000000 ∧
    resultMulti = firstNum * secondNum ∧
    -(2 ^ 63) ≤ firstNum * secondNum ∧ firstNum * secondNum < 2 ^ 63 := by
  refine ⟨by decide, by decide, by decide, by decide⟩

/-- C4: the numeric value vTask3's message interpolates is `secondNum`
(2564851111), not the computed product `resultMulti`, on every
activation. -/
theorem task3_message_displays_second_operand :
    vTask3Body = [Effect.emit (Msg.task3Mult secondNum), Effect.delay TASK3_PERIOD_MS] ∧
    secondNum = 2564851111 ∧
    decide (secondNum = resultMulti) = false ∧
    (∀ k : ℕ, vTask3Act k = some vTask3Body) :=
  ⟨rfl, by decide, by decide, fun _ => rfl⟩

/-- C5: the conversion expression of vTask2 has exact value
45440/9 = 5048.888...; the `float` value the task computes differs from it
by less than 1/1000; and the emitted message renders it with two decimals
as 5048.89 (and renders `fVal` as 9120.00), on every activation. -/
theorem task2_conversion_and_rendering :
    cValExact = 45440 / 9 ∧
    |cVal.toRat - cValExact| < 1 / 1000 ∧
    render2 cVal = 504889 ∧
    render2 fVal = 912000 ∧
    vTask2Body =
      [Effect.emit (Msg.task2Temp 912000 504889), Effect.delay TASK2_PERIOD_MS] ∧
    (∀ k : ℕ, vTask2Act k = some vTask2Body) := by
  refine ⟨by norm_num [cValExact], ?_, by decide, by decide, by decide, fun k => rfl⟩
  have h : cVal = ⟨10340124, 2048⟩ := by decide
  rw [h, abs_sub_lt_iff]
  constructor <;> norm_num [Frac.toRat, cValExact]

/-- C6: none of the four task routines can return: every activation
completes — for vTask4 because the inner search loop ends by locating the
target — and each completed body hands control back to the head of its
unconditional `for (;;)` loop, which has no exit path. -/
theorem tasks_never_return :
    (∀ k : ℕ, loopTurn vTask1Act k = some (k + 1)) ∧
    (∀ k : ℕ, loopTurn vTask2Act k = some (k + 1)) ∧
    (∀ k : ℕ, loopTurn vTask3Act k = some (k + 1)) ∧
    (∀ k : ℕ, loopTurn vTask4Act k = some (k + 1)) ∧
    (∃ n : ℕ, bsRun arr targetNumber n bsInit = some (BSOutcome.found 36)) := by
  refine ⟨fun k => rfl, fun k => rfl, fun k => rfl, fun k => ?_,
    ⟨vTask4Fuel, by decide⟩⟩
  simp [loopTurn, vTask4Act, vTask4Body_eq]

/-- C7: each task's activation performs exactly one delay request, as its
last action, equal to the task's configured period (200, 500, 1000 and
100 ms respectively), and `main_blinky` registers the four tasks at four
pairwise distinct priority levels. -/
theorem periods_and_distinct_priorities :
    delayRequests vTask1Body = [TASK1_PERIOD_MS] ∧
    vTask1Body.getLast? = some (Effect.delay TASK1_PERIOD_MS) ∧
    delayRequests vTask2Body = [TASK2_PERIOD_MS] ∧
    vTask2Body.getLast? = some (Effect.delay TASK2_PERIOD_MS) ∧
    delayRequests vTask3Body = [TASK3_PERIOD_MS] ∧
    vTask3Body.getLast? = some (Effect.delay TASK3_PERIOD_MS) ∧
    vTask4Body.map delayRequests = some [TASK4_PERIOD_MS] ∧
    vTask4Body.map List.getLast? = some (some (Effect.delay TASK4_PERIOD_MS)) ∧
    TASK1_PERIOD_MS = 200 ∧ TASK2_PERIOD_MS = 500 ∧
    TASK3_PERIOD_MS = 1000 ∧ TASK4_PERIOD_MS = 100 ∧
    taskRegs.map TaskReg.regPriority =
      [QUEUE_TASK_PRIORITY1, QUEUE_TASK_PRIORITY2,
       QUEUE_TASK_PRIORITY3, QUEUE_TASK_PRIORITY4] ∧
    (taskRegs.map TaskReg.regPriority).Nodup := by
  refine ⟨by decide, by decide, by decide, by decide, by decide, by decide,
    by decide, by decide, by decide, by decide, by decide, by decide,
    by decide, by decide⟩

/-- C8: should `vTaskStartScheduler` return, `main_blinky` stays in the
trailing empty `for (;;)` loop forever: after any number of loop turns the
phase is still `spinning` — never `returned` — and no effect is emitted
from that point on. -/
theorem main_blinky_spins_after_scheduler_return :
    (∀ n : ℕ, mainSpin n = MainPhase.spinning) ∧
    (∀ n : ℕ, (mainSpinStep (mainSpin n)).2 = []) := by
  have hspin : ∀ n : ℕ, mainSpin n = MainPhase.spinning := by
    intro n
    induction n with
    | zero => rfl
    | succ n ih => simp [mainSpin, ih, mainSpinStep]
  exact ⟨hspin, fun n => by simp [hspin n, mainSpinStep]⟩

/-- C9: with the fixed array and target 36 the loop uses exactly the mids
24, 37, 30, 33, 35, 36 — all within 0..49, so every array access is in
bounds — and the run ends by locating the target; with the absent target
100 the same loop reaches mid = 50, outside the array, so the in-bounds
property rests on the target being present. -/
theorem task4_mids_in_bounds :
    bsMids arr targetNumber vTask4Fuel bsInit = [24, 37, 30, 33, 35, 36] ∧
    (bsMids arr targetNumber vTask4Fuel bsInit).all
      (fun m => decide (0 ≤ m ∧ m ≤ 49)) = true ∧
    bsRun arr targetNumber vTask4Fuel bsInit = some (BSOutcome.found 36) ∧
    bsMids arr 100 7 bsInit = [24, 37, 43, 46, 48, 49, 50] := by
  refine ⟨by decide, by decide, by decide, by decide⟩

/-- C10: each task's activations are pairwise identical — the bodies read
only compile-time constants and per-activation locals, nothing carried
from one activation to the next and nothing owned by another task — so
any two activations of the same task produce the same effect list and
hence the same message bytes. -/
theorem task_outputs_constant :
    (∀ j k : ℕ, vTask1Act j = vTask1Act k) ∧
    (∀ j k : ℕ, vTask2Act j = vTask2Act k) ∧
    (∀ j k : ℕ, vTask3Act j = vTask3Act k) ∧
    (∀ j k : ℕ, vTask4Act j = vTask4Act k) ∧
    (∀ k : ℕ, vTask1Act k = some vTask1Body) ∧
    (∀ k : ℕ, vTask2Act k = some vTask2Body) ∧
    (∀ k : ℕ, vTask3Act k = some vTask3Body) ∧
    (∀ k : ℕ, vTask4Act k = vTask4Body) :=
  ⟨fun _ _ => rfl, fun _ _ => rfl, fun _ _ => rfl, fun _ _ => rfl,
   fun _ => rfl, fun _ => rfl, fun _ => rfl, fun _ => rfl⟩

end MainBlinky
